import Mathlib

/-!
Shallow embedding of `src/build/tree.ts` (sweetpad): the build-scheme tree
view. The file defines the data model (`BuildTreeItem`), the provider's
pure operations (`getSchemes`, `getChildren`, `getTreeItem`), the event
handlers installed in the provider's constructor (`handleEvent`), and a
discrete-time model of the 100 ms polling wait used by root-level
`getChildren` calls. Effects (logging, the `setContext` command, the
change-signal emitter) are made explicit as result fields.
-/

/-- Scheme record as consumed by the tree (`XcodeScheme`): a record with a name,
treated as read-only input. -/
structure XcodeScheme where
  name : String
deriving DecidableEq, Repr

/-- Collapsible state of a tree item (`vscode.TreeItemCollapsibleState`).
The source only ever uses `None`. -/
inductive CollapsibleState where
  | none
  | collapsed
  | expanded
deriving DecidableEq, Repr

/-- The options object passed to the `BuildTreeItem` constructor.
The `provider` back-reference is omitted (it is a cyclic object pointer
with no observable data). -/
structure BuildTreeItemOptions where
  scheme : String
  isDefaultBuild : Bool
  isDefaultTesting : Bool
  isSchemeRunning : Bool
  collapsibleState : CollapsibleState
deriving DecidableEq, Repr

/-- The observable state of a constructed `BuildTreeItem`: the fields the
constructor writes on `this` (label and collapsible state via `super`,
then `scheme`, `iconPath`, optionally `description`, and `contextValue`).
`description` is `none` when the constructor never assigns the field
(`if (description)` is false on the empty string). -/
structure BuildTreeItem where
  label : String
  collapsibleState : CollapsibleState
  scheme : String
  iconId : String
  iconColorId : String
  description : Option String
  contextValue : String
deriving DecidableEq, Repr

/-- The `BuildTreeItem` constructor body, as a pure function of its options. -/
def BuildTreeItem.make (options : BuildTreeItemOptions) : BuildTreeItem :=
  -- let description = ""; two conditional appends, each via a template
  -- literal `\x7b description \x7d <marker>`.
  let description0 : String := ""
  let description1 : String :=
    if options.isDefaultBuild then description0 ++ " ✓" else description0
  let description2 : String :=
    if options.isDefaultTesting then description1 ++ " (t)" else description1
  -- const status = options.isSchemeRunning ? "running" : "idle";
  let status : String := if options.isSchemeRunning then "running" else "idle"
  let contextKind : String := "build"   -- `contextPrefix` in the source
  { label := options.scheme
    collapsibleState := options.collapsibleState
    scheme := options.scheme
    iconId := "sweetpad-package"
    iconColorId := "sweetpad.scheme"
    description := if description2 = "" then none else some description2
    contextValue := contextKind ++ "&status=" ++ status }

/-- The manager state read by the provider during one `getSchemes` call:
the (possibly failing) asynchronous scheme fetch, the two synchronous
defaults (`string | undefined` in TS, hence `Option String`), and the
synchronous running check. -/
structure BuildManagerState where
  fetchResult : Except String (List XcodeScheme)
  defaultSchemeForBuild : Option String
  defaultSchemeForTesting : Option String
  isSchemeRunning : String → Bool

/-- The scheme list produced by the try/catch around the manager fetch:
the fetched list on success, the initial empty list on failure. -/
def fetchedSchemes (m : BuildManagerState) : List XcodeScheme :=
  match m.fetchResult with
  | .ok s => s
  | .error _ => []

/-- The effects and result of one `BuildTreeProvider.getSchemes` call:
the returned items, whether `commonLogger.error` ran (the catch branch),
and the `setContext "sweetpad.build.noSchemes"` write (`some v` means the
command ran with value `v`; `none` means it never ran). -/
structure GetSchemesResult where
  items : List BuildTreeItem
  loggedError : Bool
  setNoSchemes : Option Bool
deriving DecidableEq, Repr

/-- Provider method `BuildTreeProvider.getSchemes`, over a snapshot of the
manager state. -/
def getSchemes (m : BuildManagerState) : GetSchemesResult :=
  -- let schemes = []; try { schemes = await ... } catch { log }
  let schemes : List XcodeScheme := fetchedSchemes m
  let loggedError : Bool :=
    match m.fetchResult with
    | .ok _ => false
    | .error _ => true
  -- if (schemes.length === 0) setContext("sweetpad.build.noSchemes", true)
  let setNoSchemes : Option Bool :=
    if schemes.length = 0 then some true else none
  let items : List BuildTreeItem :=
    schemes.map fun scheme =>
      BuildTreeItem.make
        { scheme := scheme.name
          isDefaultBuild := m.defaultSchemeForBuild == some scheme.name
          isDefaultTesting := m.defaultSchemeForTesting == some scheme.name
          isSchemeRunning := m.isSchemeRunning scheme.name
          collapsibleState := CollapsibleState.none }
  { items := items, loggedError := loggedError, setNoSchemes := setNoSchemes }

/-- Payload type of the change signal:
`type EventData = BuildTreeItem | undefined | null | undefined`. -/
inductive EventData where
  | item (i : BuildTreeItem)
  | null
  | undef
deriving DecidableEq, Repr

/-- The five manager events the provider's constructor subscribes to.
The two default-scheme events carry the updated scheme (unused by the
handlers). -/
inductive ManagerEvent where
  | refreshSchemesStarted
  | refreshSchemesCompleted
  | refreshSchemesFailed
  | defaultSchemeForBuildUpdated (scheme : String)
  | defaultSchemeForTestingUpdated (scheme : String)
deriving DecidableEq, Repr

/-- What one event handler does: the new value of `isLoading` and the
payloads fired on `_onDidChangeTreeData` (via `updateView`, which fires
`null`). -/
structure HandlerResult where
  isLoading : Bool
  fired : List EventData
deriving DecidableEq, Repr

/-- Method `updateView`: fire the change signal once, with the `null` payload. -/
def updateView : List EventData := [EventData.null]

/-- The event handlers installed in the `BuildTreeProvider` constructor,
as one step function on the `isLoading` flag. -/
def handleEvent (e : ManagerEvent) (isLoading : Bool) : HandlerResult :=
  match e with
  | .refreshSchemesStarted => { isLoading := true, fired := updateView }
  | .refreshSchemesCompleted => { isLoading := false, fired := updateView }
  | .refreshSchemesFailed => { isLoading := false, fired := updateView }
  | .defaultSchemeForBuildUpdated _ => { isLoading := isLoading, fired := updateView }
  | .defaultSchemeForTestingUpdated _ => { isLoading := isLoading, fired := updateView }

/-- Field initializer `private isLoading = false`. -/
def initialIsLoading : Bool := false

/-!
Discrete-time model of the polling wait in `getChildren`:
`setInterval` ticks at times 100, 200, 300, … ms after the wait begins;
a tick resolves the promise when `!isLoading || Date.now() > deadline`,
with `deadline` 10000 ms after the wait begins. `loadingAt t` gives the
value of the `isLoading` flag at time `t` (ms since the wait began).
Fuel 101 covers ticks 100 … 10100; the tick at 10100 always resolves
(10100 > 10000), so the fuel is never exhausted.
-/

/-- One polling loop from tick time `t`, with `fuel` ticks remaining:
returns the time of the resolving tick. -/
def pollFrom (loadingAt : Nat → Bool) : Nat → Nat → Nat
  | t, 0 => t
  | t, fuel + 1 =>
    if !loadingAt t || decide (10000 < t) then t
    else pollFrom loadingAt (t + 100) fuel

/-- Time (ms after the wait begins) at which the polling promise
resolves; the first tick is at 100 ms. -/
def pollResolveTime (loadingAt : Nat → Bool) : Nat :=
  pollFrom loadingAt 100 101

/-- The `isLoading` trace of a flag that is true until it clears at time
`d` (and never clears when `d` is absent). -/
def clearAt (d : Option Nat) : Nat → Bool :=
  fun t => match d with
    | none => true
    | some d => decide (t < d)

/-- The effects and result of one `BuildTreeProvider.getChildren` call:
the returned items, the artificial wait spent in the polling promise
(0 when the wait is skipped), whether the manager was queried
(`getSchemes` and the default/running reads), the `getSchemes` effects,
and the value of `isLoading` as left by the call (the call never writes
the flag). -/
structure GetChildrenResult where
  items : List BuildTreeItem
  waitMs : Nat
  managerQueried : Bool
  loggedError : Bool
  setNoSchemes : Option Bool
  isLoadingAfter : Bool
deriving DecidableEq, Repr

/-- Provider method `BuildTreeProvider.getChildren`. `isLoading` is the flag's value at
call time; `loadingAt` is its trace during a polling wait (ms after the
wait begins); `element` is the optional node argument. -/
def getChildren (m : BuildManagerState) (isLoading : Bool)
    (loadingAt : Nat → Bool) (element : Option BuildTreeItem) : GetChildrenResult :=
  match element with
  | some _ =>
    -- one level of children only: return [] without waiting or querying
    { items := [], waitMs := 0, managerQueried := false
      loggedError := false, setNoSchemes := none, isLoadingAfter := isLoading }
  | none =>
    let waitMs : Nat := if isLoading then pollResolveTime loadingAt else 0
    let r := getSchemes m
    { items := r.items, waitMs := waitMs, managerQueried := true
      loggedError := r.loggedError, setNoSchemes := r.setNoSchemes
      isLoadingAfter := isLoading }

/-- Provider method `BuildTreeProvider.getTreeItem`: returns its argument. -/
def getTreeItem (element : BuildTreeItem) : BuildTreeItem :=
  element

/-- One render's effect on the host's `sweetpad.build.noSchemes` context
flag: the flag is overwritten only when `getSchemes` ran `setContext`. -/
def applyContextWrite (flag : Bool) (write : Option Bool) : Bool :=
  match write with
  | some v => v
  | none => flag

/-- A node displays the build-default marker: its description is one of
the two description values that contain the checkmark. -/
def hasBuildBadge (i : BuildTreeItem) : Prop :=
  i.description = some " ✓" ∨ i.description = some " ✓ (t)"

/-- A node displays the testing-default marker: its description is one of
the two description values that contain the "(t)" marker. -/
def hasTestingBadge (i : BuildTreeItem) : Prop :=
  i.description = some " (t)" ∨ i.description = some " ✓ (t)"

/-- Concrete manager snapshot used for witnesses: the spec's scenario
(schemes App and AppTests, App is the build default and running,
AppTests is the testing default). -/
def sampleManager : BuildManagerState :=
  { fetchResult := .ok [{ name := "App" }, { name := "AppTests" }]
    defaultSchemeForBuild := some "App"
    defaultSchemeForTesting := some "AppTests"
    isSchemeRunning := fun n => n == "App" }

/-- Concrete manager snapshot whose scheme fetch fails. -/
def failingManager : BuildManagerState :=
  { fetchResult := .error "Failed to get schemes"
    defaultSchemeForBuild := none
    defaultSchemeForTesting := none
    isSchemeRunning := fun _ => false }

/-- Concrete manager snapshot whose scheme fetch succeeds with no schemes. -/
def emptyManager : BuildManagerState :=
  { fetchResult := .ok []
    defaultSchemeForBuild := none
    defaultSchemeForTesting := none
    isSchemeRunning := fun _ => false }

/-- Concrete constructor options used for witnesses: the build-default,
running scheme App of the sample manager. -/
def appOptions : BuildTreeItemOptions :=
  { scheme := "App"
    isDefaultBuild := true
    isDefaultTesting := false
    isSchemeRunning := true
    collapsibleState := CollapsibleState.none }

/-- Concrete node used for witnesses: the node the sample manager's App
scheme maps to. -/
def appItem : BuildTreeItem :=
  BuildTreeItem.make appOptions

/-! ### Lemmas about the polling loop -/

/-- The resolving tick is not earlier than the tick the loop starts at. -/
theorem pollFrom_start_le (loadingAt : Nat → Bool) :
    ∀ (fuel t : Nat), t ≤ pollFrom loadingAt t fuel := by
  intro fuel
  induction fuel with
  | zero => intro t; simp [pollFrom]
  | succ n ih =>
    intro t
    unfold pollFrom
    split
    · exact Nat.le_refl t
    · exact Nat.le_trans (Nat.le_add_right t 100) (ih (t + 100))

/-- With enough fuel to pass the deadline, the loop stops at a tick
where the stopping condition holds. -/
theorem pollFrom_stops (loadingAt : Nat → Bool) :
    ∀ (fuel t : Nat), 10000 < t + 100 * fuel →
      (!loadingAt (pollFrom loadingAt t fuel)
        || decide (10000 < pollFrom loadingAt t fuel)) = true := by
  intro fuel
  induction fuel with
  | zero =>
    intro t h
    simp only [Nat.mul_zero, Nat.add_zero] at h
    simp [pollFrom, h]
  | succ n ih =>
    intro t h
    unfold pollFrom
    split
    · assumption
    · exact ih (t + 100) (by omega)

/-- If the stopping condition holds from time `b` on, the loop resolves
no later than `b + 99` (it can overshoot `b` by at most one sub-tick
remainder, the ticks being 100 ms apart). -/
theorem pollFrom_upper (loadingAt : Nat → Bool) (b : Nat)
    (hb : ∀ s, b ≤ s → (!loadingAt s || decide (10000 < s)) = true) :
    ∀ (fuel t : Nat), b ≤ t + 100 * fuel → t ≤ b + 99 →
      pollFrom loadingAt t fuel ≤ b + 99 := by
  intro fuel
  induction fuel with
  | zero =>
    intro t _ h2
    simpa [pollFrom] using h2
  | succ n ih =>
    intro t h1 h2
    unfold pollFrom
    split
    · exact h2
    · next hcond =>
      have ht : t < b := by
        by_contra hle
        rw [hb t (by omega)] at hcond
        exact hcond rfl
      exact ih (t + 100) (by omega) (by omega)

/-- Whatever the loading trace does, the polling promise resolves by
10100 ms: the first tick strictly past the 10 s deadline. -/
theorem pollResolveTime_le (loadingAt : Nat → Bool) :
    pollResolveTime loadingAt ≤ 10100 := by
  have h := pollFrom_upper loadingAt 10001
    (fun s hs => by simp [decide_eq_true (show 10000 < s by omega)])
    101 100 (by omega) (by omega)
  simpa [pollResolveTime] using h

/-- When loading clears at time `d` (with `1 ≤ d` and `d` before the
deadline), the polling promise resolves between `d` and `d + 100`. -/
theorem pollResolveTime_clear (d : Nat) (h1 : 1 ≤ d) (h2 : d < 10000) :
    d ≤ pollResolveTime (clearAt (some d))
      ∧ pollResolveTime (clearAt (some d)) ≤ d + 100 := by
  constructor
  · have h := pollFrom_stops (clearAt (some d)) 101 100 (by omega)
    rw [show pollFrom (clearAt (some d)) 100 101 = pollResolveTime (clearAt (some d)) from rfl] at h
    rcases Bool.or_eq_true_iff.mp h with h | h
    · simp only [clearAt, Bool.not_eq_true', decide_eq_false_iff_not, Nat.not_lt] at h
      exact h
    · have := of_decide_eq_true h
      omega
  · have h := pollFrom_upper (clearAt (some d)) d
      (fun s hs => by
        simp [clearAt, decide_eq_false (show ¬ s < d by omega)])
      101 100 (by omega) (by omega)
    calc pollResolveTime (clearAt (some d)) ≤ d + 99 := h
      _ ≤ d + 100 := by omega

/-! ### Claim theorems -/

/-- C2 (amended): for a root-level getChildren() call, if the loading
flag is false at call time the call proceeds with no artificial delay;
if loading is true at call time and becomes false Δ < 10s later (Δ ≥ 1 ms),
the call resolves no earlier than Δ and no later than Δ + 100ms; and in
every case the wait ends no later than 10s + 100ms after it began (the
first poll tick strictly past the deadline), whether or not loading
ever clears. -/
theorem getChildren_root_wait (m : BuildManagerState) (loadingAt : Nat → Bool) :
    (getChildren m false loadingAt none).waitMs = 0
    ∧ (∀ b : Bool, (getChildren m b loadingAt none).waitMs ≤ 10100)
    ∧ (∀ d : Nat, 1 ≤ d → d < 10000 →
        d ≤ (getChildren m true (clearAt (some d)) none).waitMs
        ∧ (getChildren m true (clearAt (some d)) none).waitMs ≤ d + 100) := by
  refine ⟨rfl, ?_, ?_⟩
  · intro b
    cases b
    · simp [getChildren]
    · simpa [getChildren] using pollResolveTime_le loadingAt
  · intro d h1 h2
    simpa [getChildren] using pollResolveTime_clear d h1 h2

/-- C2 counterexample: with loading never clearing, the root-level wait
ends 10100 ms after it began, later than the 10 s the claim allows. -/
theorem getChildren_root_wait_cx :
    ¬ (getChildren sampleManager true (fun _ => true) none).waitMs ≤ 10000 := by
  decide

/-- C2 witness for the amended theorem, at Δ = 250 ms. -/
theorem getChildren_root_wait_witness :
    250 ≤ (getChildren sampleManager true (clearAt (some 250)) none).waitMs
    ∧ (getChildren sampleManager true (clearAt (some 250)) none).waitMs ≤ 250 + 100 :=
  (getChildren_root_wait sampleManager (clearAt (some 250))).2.2 250
    (by decide) (by decide)

/-- C4: the loading flag starts false; the refresh-started handler sets
it true; the refresh-completed and refresh-failed handlers set it false;
the two default-scheme handlers leave it unchanged; every handler fires
the change signal exactly once with the null payload; and getChildren
(the only other operation reading the flag) never writes it. -/
theorem loading_flag_lifecycle :
    initialIsLoading = false
    ∧ (∀ l, (handleEvent .refreshSchemesStarted l).isLoading = true)
    ∧ (∀ l, (handleEvent .refreshSchemesCompleted l).isLoading = false)
    ∧ (∀ l, (handleEvent .refreshSchemesFailed l).isLoading = false)
    ∧ (∀ s l, (handleEvent (.defaultSchemeForBuildUpdated s) l).isLoading = l)
    ∧ (∀ s l, (handleEvent (.defaultSchemeForTestingUpdated s) l).isLoading = l)
    ∧ (∀ e l, (handleEvent e l).fired = [EventData.null])
    ∧ (∀ m l la el, (getChildren m l la el).isLoadingAfter = l) := by
  refine ⟨rfl, fun _ => rfl, fun _ => rfl, fun _ => rfl, fun _ _ => rfl,
    fun _ _ => rfl, ?_, ?_⟩
  · intro e l; cases e <;> rfl
  · intro m l la el; cases el <;> rfl

/-- C5: getChildren with a defined node argument returns the empty list
with no wait, no manager query, no logging, no context write, and the
loading flag untouched, in every provider state. -/
theorem getChildren_leaf (m : BuildManagerState) (l : Bool)
    (la : Nat → Bool) (i : BuildTreeItem) :
    getChildren m l la (some i) =
      { items := [], waitMs := 0, managerQueried := false
        loggedError := false, setNoSchemes := none, isLoadingAfter := l } :=
  rfl

/-- C7: the context value of every constructed node is the two-part key
"build&status=running" when isSchemeRunning is true and
"build&status=idle" when it is false. -/
theorem make_contextValue (o : BuildTreeItemOptions) :
    (BuildTreeItem.make o).contextValue =
      if o.isSchemeRunning then "build&status=running" else "build&status=idle" := by
  obtain ⟨s, b, t, r, c⟩ := o
  cases r <;> simp [BuildTreeItem.make]

/-- C8: getTreeItem returns its argument unchanged; it takes no provider
state and performs no effect (it is a pure function in the embedding). -/
theorem getTreeItem_identity (i : BuildTreeItem) : getTreeItem i = i :=
  rfl

/-- C1: in the node list produced by getSchemes, a node carries the
build-default badge exactly when its scheme name is the build default,
carries the testing-default badge exactly when its scheme name is the
testing default (hence both badges sit on the same node when the two
defaults coincide), and a node with neither badge has no description at
all (the field is absent, not an empty string). -/
theorem getSchemes_badges (m : BuildManagerState) :
    ∀ i ∈ (getSchemes m).items,
      (hasBuildBadge i ↔ m.defaultSchemeForBuild = some i.scheme)
      ∧ (hasTestingBadge i ↔ m.defaultSchemeForTesting = some i.scheme)
      ∧ (¬ hasBuildBadge i → ¬ hasTestingBadge i → i.description = none) := by
  intro i hi
  simp only [getSchemes, List.mem_map] at hi
  obtain ⟨s, _, rfl⟩ := hi
  cases hb : m.defaultSchemeForBuild == some s.name <;>
    cases ht : m.defaultSchemeForTesting == some s.name <;>
    simp_all [BuildTreeItem.make, hasBuildBadge, hasTestingBadge, beq_iff_eq]

/-- C1 witness: the App node of the sample manager. -/
theorem getSchemes_badges_witness :
    (hasBuildBadge appItem ↔ sampleManager.defaultSchemeForBuild = some appItem.scheme)
    ∧ (hasTestingBadge appItem ↔ sampleManager.defaultSchemeForTesting = some appItem.scheme)
    ∧ (¬ hasBuildBadge appItem → ¬ hasTestingBadge appItem →
        appItem.description = none) :=
  getSchemes_badges sampleManager appItem (by decide)

/-- C3: for a root-level getChildren call, a failed scheme fetch is
caught and logged and the call still returns, with an empty node list
and the empty-state context flag written true; the flag is likewise
written true when the fetch succeeds with an empty scheme list.
(Resolution rather than rejection is structural: getChildren is a total
function in the embedding, mirroring the try/catch in the source.) -/
theorem getChildren_fetch_error :
    (∀ (m : BuildManagerState) (l : Bool) (la : Nat → Bool) (e : String),
      m.fetchResult = .error e →
        (getChildren m l la none).loggedError = true
        ∧ (getChildren m l la none).items = []
        ∧ (getChildren m l la none).setNoSchemes = some true)
    ∧ (∀ (m : BuildManagerState) (l : Bool) (la : Nat → Bool),
      m.fetchResult = .ok [] →
        (getChildren m l la none).items = []
        ∧ (getChildren m l la none).setNoSchemes = some true) := by
  constructor
  · intro m l la e h
    simp [getChildren, getSchemes, fetchedSchemes, h]
  · intro m l la h
    simp [getChildren, getSchemes, fetchedSchemes, h]

/-- C3 witness: a failing fetch and an empty fetch, at concrete managers. -/
theorem getChildren_fetch_error_witness :
    ((getChildren failingManager false (fun _ => false) none).loggedError = true
      ∧ (getChildren failingManager false (fun _ => false) none).items = []
      ∧ (getChildren failingManager false (fun _ => false) none).setNoSchemes = some true)
    ∧ ((getChildren emptyManager false (fun _ => false) none).items = []
      ∧ (getChildren emptyManager false (fun _ => false) none).setNoSchemes = some true) :=
  ⟨getChildren_fetch_error.1 failingManager false (fun _ => false)
      "Failed to get schemes" rfl,
    getChildren_fetch_error.2 emptyManager false (fun _ => false) rfl⟩

/-- C6: getSchemes returns one node per fetched scheme, in the manager's
order: the node list has the same length, the i-th node's label and
scheme name are the i-th scheme's name unmodified, and every node is a
non-expandable leaf (collapsible state None). -/
theorem getSchemes_order (m : BuildManagerState) :
    ((getSchemes m).items.length = (fetchedSchemes m).length)
    ∧ (∀ n : Nat, ((getSchemes m).items[n]?).map BuildTreeItem.label
        = ((fetchedSchemes m)[n]?).map XcodeScheme.name)
    ∧ (∀ n : Nat, ((getSchemes m).items[n]?).map BuildTreeItem.scheme
        = ((fetchedSchemes m)[n]?).map XcodeScheme.name)
    ∧ (∀ i ∈ (getSchemes m).items, i.collapsibleState = CollapsibleState.none) := by
  refine ⟨by simp [getSchemes], ?_, ?_, ?_⟩
  · intro n
    simp only [getSchemes, List.getElem?_map]
    cases (fetchedSchemes m)[n]? <;> simp [BuildTreeItem.make]
  · intro n
    simp only [getSchemes, List.getElem?_map]
    cases (fetchedSchemes m)[n]? <;> simp [BuildTreeItem.make]
  · intro i hi
    simp only [getSchemes, List.mem_map] at hi
    obtain ⟨s, _, rfl⟩ := hi
    simp [BuildTreeItem.make]

/-- C6 witness: the App node of the sample manager is a leaf. -/
theorem getSchemes_order_witness :
    appItem.collapsibleState = CollapsibleState.none :=
  (getSchemes_order sampleManager).2.2.2 appItem (by decide)

/-- C9: the empty-state context flag is only ever written with the value
true, and only when the fetched scheme list is empty; on a non-empty
list it is not written at all; consequently, once the flag is true it
stays true across any later sequence of renders. -/
theorem noSchemes_flag_writes :
    (∀ m, (getSchemes m).setNoSchemes = some true
      ∨ (getSchemes m).setNoSchemes = none)
    ∧ (∀ m, (getSchemes m).setNoSchemes = some true ↔ fetchedSchemes m = [])
    ∧ (∀ m, fetchedSchemes m ≠ [] → (getSchemes m).setNoSchemes = none)
    ∧ (∀ (ms : List BuildManagerState) (flag : Bool), flag = true →
        ms.foldl (fun f mm => applyContextWrite f (getSchemes mm).setNoSchemes) flag
          = true) := by
  have key : ∀ m, (getSchemes m).setNoSchemes = some true
      ∨ (getSchemes m).setNoSchemes = none := by
    intro m
    simp only [getSchemes]
    split <;> simp
  refine ⟨key, ?_, ?_, ?_⟩
  · intro m
    simp only [getSchemes]
    split <;> simp_all [List.length_eq_zero]
  · intro m h
    simp only [getSchemes]
    split <;> simp_all [List.length_eq_zero]
  · intro ms
    induction ms with
    | nil => intro flag h; simpa using h
    | cons mm rest ih =>
      intro flag h
      subst h
      simp only [List.foldl_cons]
      apply ih
      rcases key mm with h1 | h1 <;> simp [applyContextWrite, h1]

/-- C9 witness: the sample manager's non-empty list writes nothing, and
a true flag survives a failing render followed by a non-empty render. -/
theorem noSchemes_flag_writes_witness :
    (getSchemes sampleManager).setNoSchemes = none
    ∧ [failingManager, sampleManager].foldl
        (fun f mm => applyContextWrite f (getSchemes mm).setNoSchemes) true = true :=
  ⟨noSchemes_flag_writes.2.2.1 sampleManager (by decide),
    noSchemes_flag_writes.2.2.2 [failingManager, sampleManager] true rfl⟩

/-- C10: when at least one badge applies, the node's description is
exactly " ✓" (build default only), " (t)" (testing default only), or
" ✓ (t)" (both): the build marker precedes the testing marker, and the
description begins with a space character. -/
theorem make_description_nonempty (o : BuildTreeItemOptions)
    (h : o.isDefaultBuild = true ∨ o.isDefaultTesting = true) :
    (BuildTreeItem.make o).description =
      some (if o.isDefaultBuild && o.isDefaultTesting then " ✓ (t)"
            else if o.isDefaultBuild then " ✓" else " (t)")
    ∧ (∀ d : String, (BuildTreeItem.make o).description = some d →
        d.data.head? = some ' ') := by
  obtain ⟨s, b, t, r, c⟩ := o
  cases b <;> cases t
  · simp at h
  all_goals
    refine ⟨by simp [BuildTreeItem.make], ?_⟩
    intro d hd
    simp only [BuildTreeItem.make] at hd
    simp at hd
    subst hd
    decide

/-- C10 witness: the build-default-only App options. -/
theorem make_description_nonempty_witness :
    (BuildTreeItem.make appOptions).description = some " ✓"
    ∧ (" ✓" : String).data.head? = some ' ' :=
  ⟨(make_description_nonempty appOptions (Or.inl rfl)).1,
    (make_description_nonempty appOptions (Or.inl rfl)).2 " ✓"
      (make_description_nonempty appOptions (Or.inl rfl)).1⟩
